import Mathlib

/-!
Shallow embedding of the MCP plugin registry and multi-server dispatch client
(`src/mcp_integration/core/multi_client.py`, `core/plugin_manager.py`,
`working_mcp_client.py`, `mcp_jsonrpc_client.py`,
`clients/brave_search_client.py`).

Python dicts become association lists, machine effects (subprocess execution,
module import, the filesystem scan of the plugins directory) become explicit
environment parameters, mutation becomes state passing, and uncaught Python
exceptions become `Except.error`.  Backend commands actually issued are
returned as an explicit trace component so that "the backend was never
contacted" is a statement about the embedding.
-/

namespace Spec2Proof

/-- One entry of a successful call result: `{"type": ..., "text": ...}`. -/
structure ContentBlock where
  type : String
  text : String
deriving DecidableEq, Repr

/-- A normalized call result dict.  Python results are plain dicts; the two
keys the contract speaks about are `content` and `error`, each of which may be
absent (`none`). -/
structure ResultDict where
  content : Option (List ContentBlock)
  error : Option String
deriving DecidableEq, Repr

/-- `{"error": msg}`. -/
def mkError (msg : String) : ResultDict := ⟨none, some msg⟩

/-- `{"content": blocks}`. -/
def mkContent (blocks : List ContentBlock) : ResultDict := ⟨some blocks, none⟩

/-- The spec's normalized-result contract: at most one of `content`/`error`
(never both), and a successful result carries at least one content block. -/
def ResultDict.normalized (r : ResultDict) : Prop :=
  ¬ (r.content.isSome = true ∧ r.error.isSome = true) ∧
    (r.error = none → ∃ bs, r.content = some bs ∧ bs ≠ [])

theorem mkError_normalized (msg : String) : (mkError msg).normalized := by
  constructor
  · intro h
    simp [mkError] at h
  · intro h
    simp [mkError] at h

theorem mkContent_one_normalized (b : ContentBlock) :
    (mkContent [b]).normalized := by
  constructor
  · intro h
    simp [mkContent] at h
  · intro _
    exact ⟨[b], rfl, by simp⟩

/-- The result of one external command execution, as built by
`_run_docker_command`: `{"success", "output", "error", "returncode"}`.
The Python helper catches its own exceptions and folds them into this shape,
so the runner is total. -/
structure CmdResult where
  success : Bool
  output : String
  error : String
  returncode : Int
deriving DecidableEq, Repr

/-- The injected process-invocation capability: what `docker exec` (or a
failed attempt to spawn it) answers for a given full command line. -/
def Runner : Type := List String → CmdResult

/-- Tool arguments: a Python dict of argument name to value. -/
def Args : Type := List (String × String)

/-- `arguments.get(key, default)`. -/
def argGet (args : Args) (key default : String) : String :=
  match args.find? (fun p => p.1 == key) with
  | some p => p.2
  | none => default

/-- `str(list_of_strings)` as Python prints it, e.g. `[\x27fs\x27, \x27web\x27]`. -/
def pyListRepr (ids : List String) : String :=
  "[" ++ String.intercalate ", " (ids.map (fun s => "\x27" ++ s ++ "\x27")) ++ "]"

/-- One tool spec of a catalogue: description plus parameter descriptions. -/
structure ToolSpec where
  description : String
  parameters : List (String × String)
deriving DecidableEq, Repr

/-! ## WorkingMCPClient (`working_mcp_client.py`) -/

/-- State of a `WorkingMCPClient` instance (the docker-exec backed
filesystem handler). -/
structure WorkingMCPClient where
  containerName : String
  serverPath : String
  isInitialized : Bool
deriving DecidableEq, Repr

/-- The fixed `available_tools` catalogue set in `WorkingMCPClient.__init__`. -/
def workingAvailableTools : List (String × ToolSpec) :=
  [ ("list_directory",
      ⟨"List contents of a directory", [("path", "Directory path to list")]⟩),
    ("read_file",
      ⟨"Read contents of a text file", [("path", "File path to read")]⟩),
    ("write_file",
      ⟨"Write content to a file",
        [("path", "File path to write"), ("content", "Content to write")]⟩),
    ("create_directory",
      ⟨"Create a new directory", [("path", "Directory path to create")]⟩),
    ("move_file",
      ⟨"Move or rename a file",
        [("source", "Source path"), ("destination", "Destination path")]⟩),
    ("get_file_info",
      ⟨"Get file metadata and information", [("path", "File path to inspect")]⟩),
    ("search_files",
      ⟨"Search for files matching a pattern",
        [("pattern", "Search pattern"), ("path", "Directory to search in")]⟩),
    ("directory_tree",
      ⟨"Get directory tree structure",
        [("path", "Root directory path"), ("max_depth", "Maximum depth (optional)")]⟩) ]

/-- `_run_docker_command`'s command construction:
`["docker", "exec", container] + command`. -/
def dockerCmd (c : WorkingMCPClient) (cmd : List String) : List String :=
  ["docker", "exec", c.containerName] ++ cmd

/-- `_safe_path`: prefix relative paths with the base path, then strip `..`. -/
def safePath (c : WorkingMCPClient) (path : String) : String :=
  let p := if path.startsWith "/" then path else c.serverPath ++ "/" ++ path
  p.replace ".." ""

/-- The common branch body of `WorkingMCPClient.call_tool`: run one docker
command; on zero exit wrap a text content block built from stdout, otherwise
return an error dict built from stderr.  The trace records the command run. -/
def execBranch (c : WorkingMCPClient) (run : Runner) (cmd : List String)
    (okText : String → String) (errText : String → String) :
    ResultDict × List (List String) :=
  let full := dockerCmd c cmd
  let r := run full
  (if r.success then mkContent [⟨"text", okText r.output⟩]
   else mkError (errText r.error), [full])

/-- `WorkingMCPClient.call_tool`, lines 122-244.  Returns the result dict and
the list of backend commands issued during the call. -/
def WorkingMCPClient.callTool (c : WorkingMCPClient) (run : Runner)
    (toolName : String) (args : Args) : ResultDict × List (List String) :=
  if c.isInitialized = false then
    (mkError "MCP client not initialized", [])
  else if ((workingAvailableTools.map (fun p => p.1)).contains toolName) = false then
    (mkError ("Unknown tool: " ++ toolName), [])
  else if toolName = "list_directory" then
    let path := safePath c (argGet args "path" c.serverPath)
    execBranch c run ["ls", "-la", path]
      (fun out => "Directory listing for " ++ path ++ ":\n" ++ out)
      (fun err => "Failed to list directory: " ++ err)
  else if toolName = "read_file" then
    let path := safePath c (argGet args "path" "")
    execBranch c run ["cat", path]
      (fun out => out)
      (fun err => "Failed to read file: " ++ err)
  else if toolName = "write_file" then
    let path := safePath c (argGet args "path" "")
    let content := argGet args "content" ""
    execBranch c run ["sh", "-c", "echo \x27" ++ content ++ "\x27 > " ++ path]
      (fun _ => "Successfully wrote to " ++ path)
      (fun err => "Failed to write file: " ++ err)
  else if toolName = "create_directory" then
    let path := safePath c (argGet args "path" "")
    execBranch c run ["mkdir", "-p", path]
      (fun _ => "Directory created: " ++ path)
      (fun err => "Failed to create directory: " ++ err)
  else if toolName = "get_file_info" then
    let path := safePath c (argGet args "path" "")
    execBranch c run ["stat", path]
      (fun out => "File info for " ++ path ++ ":\n" ++ out)
      (fun err => "Failed to get file info: " ++ err)
  else if toolName = "search_files" then
    let pattern := argGet args "pattern" "*"
    let searchPath := safePath c (argGet args "path" c.serverPath)
    execBranch c run ["find", searchPath, "-name", pattern, "-type", "f"]
      (fun out => "Files matching \x27" ++ pattern ++ "\x27 in " ++ searchPath ++ ":\n" ++ out)
      (fun err => "Search failed: " ++ err)
  else if toolName = "directory_tree" then
    let path := safePath c (argGet args "path" c.serverPath)
    let maxDepth := argGet args "max_depth" "3"
    execBranch c run ["find", path, "-maxdepth", maxDepth, "-type", "d"]
      (fun out => "Directory tree for " ++ path ++ ":\n" ++ out)
      (fun err => "Failed to get directory tree: " ++ err)
  else
    (mkError ("Tool " ++ toolName ++ " not implemented"), [])

/-- `WorkingMCPClient.close`: sets the ready flag false. -/
def WorkingMCPClient.close (c : WorkingMCPClient) : WorkingMCPClient :=
  { c with isInitialized := false }

theorem execBranch_normalized (c : WorkingMCPClient) (run : Runner)
    (cmd : List String) (okText errText : String → String) :
    ((execBranch c run cmd okText errText).1).normalized := by
  unfold execBranch
  dsimp only
  split
  · exact mkContent_one_normalized _
  · exact mkError_normalized _

/-- Every result of the working client's `call_tool` obeys the normalized
contract. -/
theorem working_callTool_normalized (c : WorkingMCPClient) (run : Runner)
    (toolName : String) (args : Args) :
    ((c.callTool run toolName args).1).normalized := by
  unfold WorkingMCPClient.callTool
  repeat' split
  all_goals
    first
      | exact mkError_normalized _
      | exact execBranch_normalized _ _ _ _ _

/-! ## Plugin descriptors and the generic handler interface -/

/-- A plugin configuration dict as it reaches `MCPServerClient`: the YAML
fields the core reads.  Keys a Python dict may simply lack are `Option`s. -/
structure PluginConfig where
  enabled : Bool
  name : Option String
  description : Option String
  icon : Option String
  containerName : Option String
  serverPath : Option String
  tools : Option (List (String × ToolSpec))
  clientClass : Option String
  serverIdField : Option String
deriving DecidableEq, Repr

/-- The operations the dispatch layer invokes on a working-client instance of
state type `σ` (`get_available_tools`, `call_tool`, `close`).  `call` returns
`Except.error` when the Python call raises, together with the backend
commands it issued; `close` likewise may raise. -/
structure HandlerOps (σ : Type) where
  getTools : σ → List (String × ToolSpec)
  call : σ → String → Args → Except String ResultDict × List (List String)
  close : σ → Except String σ

/-- State of an `MCPServerClient` wrapper (`core/multi_client.py`, class
`MCPServerClient`).  The source always constructs `working_client`, but every
use is guarded by a truthiness test, so the field is an `Option`. -/
structure MCPServerClient (σ : Type) where
  serverId : String
  config : PluginConfig
  workingClient : Option σ
  isInitialized : Bool

/-- `MCPServerClient.get_available_tools`, lines 45-49. -/
def serverGetTools {σ : Type} (ops : HandlerOps σ) (c : MCPServerClient σ) :
    List (String × ToolSpec) :=
  match c.workingClient with
  | some w => ops.getTools w
  | none => c.config.tools.getD []

/-- `MCPServerClient.call_tool`, lines 51-66.  The error branches interpolate
`self.config["name"]` with a bare index, so a missing `name` key raises
(`Except.error`); the delegated branch converts any exception of the working
client's call into a `Tool execution failed` error dict.  The second
component is the trace of backend commands issued. -/
def serverCallTool {σ : Type} (ops : HandlerOps σ) (c : MCPServerClient σ)
    (toolName : String) (args : Args) :
    Except String ResultDict × List (List String) :=
  if c.isInitialized = false then
    (match c.config.name with
     | none => (Except.error "KeyError: \x27name\x27", [])
     | some n => (Except.ok (mkError (n ++ " not initialized")), []))
  else
    match c.workingClient with
    | none =>
      (match c.config.name with
       | none => (Except.error "KeyError: \x27name\x27", [])
       | some n => (Except.ok (mkError ("No working client available for " ++ n)), []))
    | some w =>
      if (((ops.getTools w).map (fun p => p.1)).contains toolName) = false then
        (match c.config.name with
         | none => (Except.error "KeyError: \x27name\x27", [])
         | some n =>
           (Except.ok (mkError ("Unknown tool \x27" ++ toolName ++ "\x27 for " ++ n)), []))
      else
        match ops.call w toolName args with
        | (Except.ok r, tr) => (Except.ok r, tr)
        | (Except.error e, tr) =>
          (Except.ok (mkError ("Tool execution failed: " ++ e)), tr)

/-- `MCPServerClient.close`, lines 68-71: closes the working client (which may
raise) and — notably — does not touch the wrapper's own `is_initialized`. -/
def serverClose {σ : Type} (ops : HandlerOps σ) (c : MCPServerClient σ) :
    Except String (MCPServerClient σ) :=
  match c.workingClient with
  | none => Except.ok c
  | some w =>
    match ops.close w with
    | Except.ok w2 => Except.ok { c with workingClient := some w2 }
    | Except.error e => Except.error e

/-! ## MultiMCPClient (the Dispatch Client) -/

/-- State of a `MultiMCPClient`: insertion-ordered mapping `server_id ->
MCPServerClient` plus the ready flag. -/
structure MultiMCPClient (σ : Type) where
  servers : List (String × MCPServerClient σ)
  isInitialized : Bool

/-- A freshly constructed Dispatch Client (`__init__`). -/
def freshMulti (σ : Type) : MultiMCPClient σ := ⟨[], false⟩

/-- `self.servers` lookup by key. -/
def lookupServer {σ : Type} (m : MultiMCPClient σ) (serverId : String) :
    Option (MCPServerClient σ) :=
  (m.servers.find? (fun p => p.1 == serverId)).map (fun p => p.2)

/-- The ids of the currently active servers, `list(self.servers.keys())`. -/
def activeIds {σ : Type} (m : MultiMCPClient σ) : List String :=
  m.servers.map (fun p => p.1)

/-- The `ServerNotAvailable` message of `MultiMCPClient.call_tool`, line 144. -/
def serverNotAvailableMsg (serverId : String) (available : List String) : String :=
  "Server \x27" ++ serverId ++ "\x27 not available. Available servers: " ++
    pyListRepr available

/-- `MultiMCPClient.call_tool`, lines 137-146.  The second component records
the delegations performed: the `(server_id, tool_name, arguments)` triples
handed to a server handler's `call_tool`. -/
def multiCallTool {σ : Type} (ops : HandlerOps σ) (m : MultiMCPClient σ)
    (serverId toolName : String) (args : Args) :
    Except String ResultDict × List (String × String × Args) :=
  if m.isInitialized = false then
    (Except.ok (mkError "Multi-MCP Client not initialized"), [])
  else
    match lookupServer m serverId with
    | none =>
      (Except.ok (mkError (serverNotAvailableMsg serverId (activeIds m))), [])
    | some c =>
      ((serverCallTool ops c toolName args).1, [(serverId, toolName, args)])

/-- `MultiMCPClient.get_server_tools`, lines 131-135. -/
def getServerTools {σ : Type} (ops : HandlerOps σ) (m : MultiMCPClient σ)
    (serverId : String) : List (String × ToolSpec) :=
  match lookupServer m serverId with
  | some c => serverGetTools ops c
  | none => []

/-- One presentation summary built by `get_available_servers`. -/
structure ServerSummary where
  name : String
  description : String
  icon : String
  tools : List String
deriving DecidableEq, Repr

/-- One entry of the `get_available_servers` comprehension: the three
`config[...]` lookups are bare indexing, so a missing key raises. -/
def summarizeServer {σ : Type} (ops : HandlerOps σ) (serverId : String)
    (c : MCPServerClient σ) : Except String (String × ServerSummary) :=
  match c.config.name with
  | none => Except.error "KeyError: \x27name\x27"
  | some n =>
    match c.config.description with
    | none => Except.error "KeyError: \x27description\x27"
    | some d =>
      match c.config.icon with
      | none => Except.error "KeyError: \x27icon\x27"
      | some i =>
        Except.ok (serverId, ⟨n, d, i, (serverGetTools ops c).map (fun p => p.1)⟩)

/-- The dict comprehension of `get_available_servers`, evaluated in order;
the first raising entry aborts the whole comprehension. -/
def summarizeServers {σ : Type} (ops : HandlerOps σ) :
    List (String × MCPServerClient σ) → Except String (List (String × ServerSummary))
  | [] => Except.ok []
  | p :: rest =>
    match summarizeServer ops p.1 p.2 with
    | Except.error e => Except.error e
    | Except.ok s =>
      match summarizeServers ops rest with
      | Except.error e => Except.error e
      | Except.ok l => Except.ok (s :: l)

/-- `MultiMCPClient.get_available_servers`, lines 119-129. -/
def getAvailableServers {σ : Type} (ops : HandlerOps σ) (m : MultiMCPClient σ) :
    Except String (List (String × ServerSummary)) :=
  summarizeServers ops m.servers

/-- The per-server loop of `MultiMCPClient.close`, lines 148-151: close each
handler in order; the first raising close aborts the loop and propagates.
The trace lists the server ids whose `close()` was invoked (including a
failing one).  The dict itself is never cleared; entries keep their
(possibly mutated) handler states. -/
def closeServers {σ : Type} (ops : HandlerOps σ) :
    List (String × MCPServerClient σ) →
      Except String (List (String × MCPServerClient σ)) × List String
  | [] => (Except.ok [], [])
  | (sid, c) :: rest =>
    match serverClose ops c with
    | Except.error e => (Except.error e, [sid])
    | Except.ok c2 =>
      match closeServers ops rest with
      | (Except.error e, tr) => (Except.error e, sid :: tr)
      | (Except.ok rest2, tr) => (Except.ok ((sid, c2) :: rest2), sid :: tr)

/-- `MultiMCPClient.close`, lines 148-151. -/
def multiClose {σ : Type} (ops : HandlerOps σ) (m : MultiMCPClient σ) :
    Except String (MultiMCPClient σ) × List String :=
  match closeServers ops m.servers with
  | (Except.error e, tr) => (Except.error e, tr)
  | (Except.ok svs, tr) => (Except.ok { m with servers := svs }, tr)

/-- Outcome of one enabled-plugin iteration of `MultiMCPClient.initialize`:
the server initialized and is added (`ok`), its initialization returned
false and only that server is skipped (`failed`), or an exception escaped
the iteration (`raised`) — the loop has no per-plugin handler, so a raise
aborts the whole `initialize()` through the outer except of lines 115-117. -/
inductive InitOutcome (σ : Type) where
  | ok (c : MCPServerClient σ)
  | failed
  | raised (e : String)

/-- Whether the outcome added an initialized server. -/
def InitOutcome.isOkB {σ : Type} : InitOutcome σ → Bool
  | InitOutcome.ok _ => true
  | _ => false

/-- Whether the outcome was an escaping exception. -/
def InitOutcome.isRaisedB {σ : Type} : InitOutcome σ → Bool
  | InitOutcome.raised _ => true
  | _ => false

/-- One enabled-plugin step of the `initialize()` loop: lines 97-99 together
with `MCPServerClient.__init__` (line 18) and `MCPServerClient.initialize`
(lines 21-43).  `config["client_class"]` raises if the key is absent;
`client_class(config)` (the environment `ctor`) may raise — both escape the
iteration.  Inside `MCPServerClient.initialize`, the line-24 print indexes
`config["name"]`: when the key is missing the KeyError is caught at line 41
only for line 42 to index `config["name"]` again inside the handler, so it
re-raises and escapes too.  With a name present, the working client's own
initialize (environment `wcInit`, which may itself raise) decides: success
yields an initialized wrapper holding the (possibly mutated) client; both a
false return and a raise there are contained by lines 41-43 into a skipped
server. -/
def initPlugin {σ : Type} (ctor : String → PluginConfig → Except String σ)
    (wcInit : σ → Except String (Bool × σ)) (serverId : String)
    (cfg : PluginConfig) : InitOutcome σ :=
  match cfg.clientClass with
  | none => InitOutcome.raised "KeyError: \x27client_class\x27"
  | some _ =>
    match ctor serverId cfg with
    | Except.error e => InitOutcome.raised e
    | Except.ok w =>
      match cfg.name with
      | none => InitOutcome.raised "KeyError: \x27name\x27"
      | some _ =>
        match wcInit w with
        | Except.ok (true, w2) => InitOutcome.ok ⟨serverId, cfg, some w2, true⟩
        | Except.ok (false, _) => InitOutcome.failed
        | Except.error _ => InitOutcome.failed

/-- The plugin loop of `MultiMCPClient.initialize`, lines 92-105: disabled
plugins are skipped; a step that initialized its server appends it to
`self.servers`; a contained failure skips only that server; a raising step
stops the loop at once, with the servers added so far retained.  The
boolean records whether the loop was aborted by an exception. -/
def multiInitGo {σ : Type} (step : String → PluginConfig → InitOutcome σ) :
    List (String × PluginConfig) → List (String × MCPServerClient σ) →
      List (String × MCPServerClient σ) × Bool
  | [], acc => (acc, false)
  | p :: rest, acc =>
    if p.2.enabled = false then multiInitGo step rest acc
    else
      match step p.1 p.2 with
      | InitOutcome.ok c => multiInitGo step rest (acc ++ [(p.1, c)])
      | InitOutcome.failed => multiInitGo step rest acc
      | InitOutcome.raised _ => (acc, true)

/-- `MultiMCPClient.initialize`, lines 81-117: an empty registry returns
false immediately; otherwise the loop runs; if an exception aborted it, the
outer handler (lines 115-117) returns false with `self.servers` keeping the
servers added before the abort and the ready flag untouched; otherwise the
call returns true (setting the ready flag) iff `self.servers` ended up
non-empty. -/
def multiInit {σ : Type} (ctor : String → PluginConfig → Except String σ)
    (wcInit : σ → Except String (Bool × σ))
    (plugins : List (String × PluginConfig)) (m : MultiMCPClient σ) :
    MultiMCPClient σ × Bool :=
  if plugins.isEmpty then (m, false)
  else
    match multiInitGo (initPlugin ctor wcInit) plugins m.servers with
    | (servers, true) => ({ m with servers := servers }, false)
    | (servers, false) =>
      if servers.isEmpty then ({ m with servers := servers }, false)
      else ({ servers := servers, isInitialized := true }, true)

/-! ## The working-client instantiation of the handler interface -/

/-- `HandlerOps` instantiated with the concrete `WorkingMCPClient` embedding:
its `call_tool` body is fully wrapped in try/except, so `call` never raises;
its `close` only clears the ready flag and never raises. -/
def workingOps (run : Runner) : HandlerOps WorkingMCPClient :=
  { getTools := fun _ => workingAvailableTools,
    call := fun c toolName args =>
      ((Except.ok (c.callTool run toolName args).1 : Except String ResultDict),
        (c.callTool run toolName args).2),
    close := fun c => Except.ok c.close }

/-! ## Plugin registry load (`core/plugin_manager.py`, `load_plugins`) -/

/-- Outcome of `yaml.safe_load` on a candidate's `config.yaml`: a parse
error, a falsy (empty) document, or a configuration dict. -/
inductive YamlParse where
  | failed
  | emptyConfig
  | ok (cfg : PluginConfig)
deriving DecidableEq, Repr

/-- One directory entry of the plugins directory, together with what the
environment answers for it: whether it is a directory, whether it holds a
`config.yaml`, how that file parses, and whether the client class resolves
(explicitly or by naming convention) — `none` means the import or attribute
lookup raised. -/
structure PluginCandidate where
  name : String
  isDir : Bool
  hasConfigFile : Bool
  parse : YamlParse
  resolvedClass : Option String
deriving DecidableEq, Repr

/-- Python's `name.startswith('.')` for the one-character prefix: the first
character of the name is a dot. -/
def isHiddenName (s : String) : Bool := s.data.head? == some '.'

/-- A candidate survives `load_plugins` iff it is a non-hidden directory with
a `config.yaml` that parses to a non-empty config and a resolvable client
class. -/
def candidateAccepted (c : PluginCandidate) : Bool :=
  c.isDir && !(isHiddenName c.name) && c.hasConfigFile &&
    (match c.parse with
     | YamlParse.ok _ => true
     | _ => false) &&
    c.resolvedClass.isSome

instance : Inhabited PluginConfig :=
  ⟨⟨false, none, none, none, none, none, none, none, none⟩⟩

/-- The registry entry built for an accepted candidate: its config with the
resolved class and the `server_id` written back in (lines 74-77). -/
def candidateEntry (c : PluginCandidate) : String × PluginConfig :=
  match c.parse with
  | YamlParse.ok cfg =>
    (c.name, { cfg with clientClass := c.resolvedClass, serverIdField := some c.name })
  | _ => (c.name, default)

/-- The per-candidate body of the `load_plugins` loop, lines 34-83: every
malformed candidate is skipped (`continue`), an accepted one is added. -/
def loadStep (acc : List (String × PluginConfig)) (c : PluginCandidate) :
    List (String × PluginConfig) :=
  if c.isDir && !(isHiddenName c.name) then
    if c.hasConfigFile = false then acc
    else
      match c.parse with
      | YamlParse.failed => acc
      | YamlParse.emptyConfig => acc
      | YamlParse.ok cfg =>
        match c.resolvedClass with
        | none => acc
        | some cls =>
          acc ++ [(c.name, { cfg with clientClass := some cls,
                                      serverIdField := some c.name })]
  else acc

/-- `load_plugins`, lines 29-87 (cache aside): a missing plugins directory
yields the empty registry; otherwise the candidates are folded with
`loadStep`. -/
def loadPlugins (pluginsDirExists : Bool) (cands : List PluginCandidate) :
    List (String × PluginConfig) :=
  if pluginsDirExists = false then []
  else cands.foldl loadStep []

/-! ## Structured request/response line scanning -/

/-- What one line of the backend's stdout holds after `json.loads`: an id (if
the `id` member is a string), presence of a `result` member (with the call
result it carries), and presence of an `error` member (with its printed
form). -/
structure RpcResponse where
  id : Option String
  result : Option ResultDict
  error : Option String
deriving DecidableEq, Repr

/-- One line of backend output: whitespace-only, unparsable, or a parsed
JSON object. -/
inductive JsonLine where
  | blank
  | malformed (raw : String)
  | parsed (r : RpcResponse)
deriving DecidableEq, Repr

/-- The response scan of `MCPJSONRPCClient.call_tool`, lines 58-77: take the
first parsed line that has a `result` member (returned as-is) or an `error`
member (wrapped); blank and malformed lines are skipped; if nothing matches,
fall back to the raw stdout as one text block.  The request id is never
consulted. -/
def jsonrpcScan : List JsonLine → String → ResultDict
  | [], raw => mkContent [⟨"text", raw⟩]
  | JsonLine.blank :: rest, raw => jsonrpcScan rest raw
  | JsonLine.malformed _ :: rest, raw => jsonrpcScan rest raw
  | JsonLine.parsed r :: rest, raw =>
    match r.result with
    | some res => res
    | none =>
      match r.error with
      | some e => mkError ("MCP Error: " ++ e)
      | none => jsonrpcScan rest raw

/-- The response scan of `BraveSearchClient._run_mcp_tool`, lines 148-172: a
parsed line whose id equals the request id and that carries a `result` wins;
otherwise any line carrying an `error` member wins (its id is not checked);
blank and malformed lines are skipped; the fallback returns the stripped raw
output as one text block. -/
def braveScan (requestId : String) : List JsonLine → String → ResultDict
  | [], raw => mkContent [⟨"text", raw⟩]
  | JsonLine.blank :: rest, raw => braveScan requestId rest raw
  | JsonLine.malformed _ :: rest, raw => braveScan requestId rest raw
  | JsonLine.parsed r :: rest, raw =>
    match r.result with
    | some res =>
      if r.id = some requestId then res
      else
        match r.error with
        | some e => mkError ("MCP Server Error: " ++ e)
        | none => braveScan requestId rest raw
    | none =>
      match r.error with
      | some e => mkError ("MCP Server Error: " ++ e)
      | none => braveScan requestId rest raw

/-! ## Shared helper lemmas and concrete fixtures -/

/-- A runner answering every command with a zero exit status. -/
def runOk : Runner := fun _ => ⟨true, "ok-output", "", 0⟩

/-- A filesystem-plugin configuration as the registry would deliver it. -/
def cfgFs : PluginConfig :=
  ⟨true, some "Filesystem", some "File operations", some "folder",
    some "agent-framework-mcp-filesystem-1", some "/projects",
    some workingAvailableTools, some "WorkingMCPClient", some "fs"⟩

/-- A web-search-plugin configuration. -/
def cfgWeb : PluginConfig :=
  ⟨true, some "Brave Search", some "Web search", some "magnifier",
    some "agent-framework-mcp-brave-search-1", some "/app",
    none, some "BraveSearchClient", some "web"⟩

/-- An initialized working client for the filesystem container. -/
def wcFs : WorkingMCPClient :=
  ⟨"agent-framework-mcp-filesystem-1", "/projects", true⟩

/-- An initialized server wrapper for the filesystem plugin. -/
def srvFs : MCPServerClient WorkingMCPClient := ⟨"fs", cfgFs, some wcFs, true⟩

/-- A Dispatch Client with the single active server `fs`. -/
def multiFs : MultiMCPClient WorkingMCPClient := ⟨[("fs", srvFs)], true⟩

theorem lookupServer_mem {σ : Type} {m : MultiMCPClient σ} {sid : String}
    {c : MCPServerClient σ} (h : lookupServer m sid = some c) :
    ∃ p ∈ m.servers, p.2 = c := by
  unfold lookupServer at h
  cases hf : m.servers.find? (fun p => p.1 == sid) with
  | none => rw [hf] at h; exact absurd h (by simp)
  | some p =>
    rw [hf] at h
    exact ⟨p, List.mem_of_find?_eq_some hf, Option.some.inj h⟩

theorem serverCallTool_working_ok (run : Runner)
    (c : MCPServerClient WorkingMCPClient) (toolName : String) (args : Args)
    (n : String) (hn : c.config.name = some n) :
    ∃ r, (serverCallTool (workingOps run) c toolName args).1 = Except.ok r ∧
      r.normalized := by
  unfold serverCallTool
  split
  · rw [hn]
    exact ⟨_, rfl, mkError_normalized _⟩
  · cases hw : c.workingClient with
    | none =>
      rw [hn]
      exact ⟨_, rfl, mkError_normalized _⟩
    | some w =>
      dsimp only
      split
      · rw [hn]
        exact ⟨_, rfl, mkError_normalized _⟩
      · exact ⟨_, rfl, working_callTool_normalized w run toolName args⟩

/-- C1 — after a successful `initialize()`, dispatching to an id that is not
among the active servers yields the `ServerNotAvailable` error dict whose
text embeds exactly the list of currently active server ids, and nothing is
delegated to any handler. -/
theorem c1_server_not_available {σ : Type} (ops : HandlerOps σ)
    (m : MultiMCPClient σ) (serverId toolName : String) (args : Args)
    (hinit : m.isInitialized = true) (hmiss : lookupServer m serverId = none) :
    multiCallTool ops m serverId toolName args =
      (Except.ok (mkError (serverNotAvailableMsg serverId (activeIds m))), []) := by
  unfold multiCallTool
  rw [hinit, hmiss]
  rfl

theorem c1_witness :
    multiCallTool (workingOps runOk) multiFs "github" "search_repositories" [] =
      (Except.ok (mkError (serverNotAvailableMsg "github" (activeIds multiFs))), []) :=
  c1_server_not_available (workingOps runOk) multiFs "github"
    "search_repositories" [] rfl rfl

/-- C4 — on an initialized server handler, a tool name absent from the
current catalogue is answered with the `UnknownTool` error dict and the
backend-command trace stays empty: the backend is never contacted. -/
theorem c4_unknown_tool {σ : Type} (ops : HandlerOps σ) (c : MCPServerClient σ)
    (toolName : String) (args : Args) (w : σ) (n : String)
    (hi : c.isInitialized = true) (hw : c.workingClient = some w)
    (hn : c.config.name = some n)
    (ht : (((ops.getTools w).map (fun p => p.1)).contains toolName) = false) :
    serverCallTool ops c toolName args =
      (Except.ok (mkError ("Unknown tool \x27" ++ toolName ++ "\x27 for " ++ n)), []) := by
  unfold serverCallTool
  rw [hi, hw]
  dsimp only
  rw [ht, hn]
  rfl

theorem c4_witness :
    serverCallTool (workingOps runOk) srvFs "delete_everything" [] =
      (Except.ok (mkError
        ("Unknown tool \x27delete_everything\x27 for Filesystem")), []) :=
  c4_unknown_tool (workingOps runOk) srvFs "delete_everything" [] wcFs
    "Filesystem" rfl rfl rfl (by decide)

/-- C7 — for an active server whose configuration declares a tool catalogue
and whose handler does not override it (the handler either is absent or
advertises exactly the declared catalogue), `get_server_tools` returns
exactly the declared catalogue. -/
theorem c7_catalogue_round_trip {σ : Type} (ops : HandlerOps σ)
    (m : MultiMCPClient σ) (serverId : String) (c : MCPServerClient σ)
    (T : List (String × ToolSpec))
    (hact : lookupServer m serverId = some c)
    (hdecl : c.config.tools = some T)
    (hover : ∀ w, c.workingClient = some w → ops.getTools w = T) :
    getServerTools ops m serverId = T := by
  unfold getServerTools
  rw [hact]
  dsimp only
  unfold serverGetTools
  cases hw : c.workingClient with
  | none => rw [hdecl]; rfl
  | some w => exact hover w hw

theorem c7_witness : getServerTools (workingOps runOk) multiFs "fs" =
    workingAvailableTools :=
  c7_catalogue_round_trip (workingOps runOk) multiFs "fs" srvFs
    workingAvailableTools rfl rfl (fun _ _ => rfl)

/-- C2 — dispatching any `(server_id, tool_name, arguments)` through a
Dispatch Client whose active servers are working-client backed (and, as
`initialize()` guarantees for every reachable state, have a `name` in their
configuration) yields an ordinary return (`Except.ok`: no exception crosses
the boundary) whose dict is normalized: at most one of `content`/`error`,
never both, and a successful result carries at least one content block.
Moreover, for any handler kind whose call raises, the server wrapper
converts the exception into a `Tool execution failed` error dict rather
than letting it propagate. -/
theorem c2_normalized_no_exception :
    (∀ (run : Runner) (m : MultiMCPClient WorkingMCPClient)
        (serverId toolName : String) (args : Args),
      (∀ p ∈ m.servers, (p.2.config.name).isSome = true) →
      ∃ r, (multiCallTool (workingOps run) m serverId toolName args).1 =
        Except.ok r ∧ r.normalized) ∧
    (∀ (σ : Type) (ops : HandlerOps σ) (c : MCPServerClient σ) (w : σ)
        (toolName : String) (args : Args) (e : String) (tr : List (List String)),
      c.isInitialized = true → c.workingClient = some w →
      (((ops.getTools w).map (fun p => p.1)).contains toolName) = true →
      ops.call w toolName args = (Except.error e, tr) →
      serverCallTool ops c toolName args =
        (Except.ok (mkError ("Tool execution failed: " ++ e)), tr)) := by
  constructor
  · intro run m serverId toolName args hnames
    unfold multiCallTool
    split
    · exact ⟨_, rfl, mkError_normalized _⟩
    · cases hl : lookupServer m serverId with
      | none => exact ⟨_, rfl, mkError_normalized _⟩
      | some c =>
        obtain ⟨p, hp, hpc⟩ := lookupServer_mem hl
        obtain ⟨n, hn⟩ := Option.isSome_iff_exists.mp (hpc ▸ hnames p hp)
        exact serverCallTool_working_ok run c toolName args n hn
  · intro σ ops c w toolName args e tr hi hw ht hcall
    unfold serverCallTool
    rw [hi, hw]
    dsimp only
    rw [ht, hcall]
    rfl

theorem c2_witness :
    ∃ r, (multiCallTool (workingOps runOk) multiFs "fs" "read_file"
        [("path", "notes.txt")]).1 = Except.ok r ∧ r.normalized :=
  c2_normalized_no_exception.1 runOk multiFs "fs" "read_file"
    [("path", "notes.txt")] (by decide)

/-! ## C6 — identifier matching in the line scans -/

/-- A result payload labelled `one`. -/
def resOne : ResultDict := mkContent [⟨"text", "one"⟩]

/-- A result payload labelled `two`. -/
def resTwo : ResultDict := mkContent [⟨"text", "two"⟩]

/-- An output stream in which a response for a different request id appears
before the response for `req-1`. -/
def crossLines : List JsonLine :=
  [JsonLine.parsed ⟨some "other-id", some resOne, none⟩,
   JsonLine.parsed ⟨some "req-1", some resTwo, none⟩]

/-- C6 counterexample — the `MCPJSONRPCClient` scan returns the first
result-bearing line even though its identifier differs from the request id
`req-1`: the matching response `resTwo` is not the one returned. -/
theorem c6_counterexample :
    jsonrpcScan crossLines "raw" = resOne ∧ resOne ≠ resTwo :=
  ⟨rfl, by decide⟩

/-- C6 amended — only the `BraveSearchClient` variant matches identifiers on
result responses: a result-bearing line with a different identifier (and no
`error` member) earlier in the stream is skipped, and the first
result-bearing line whose identifier matches the request id is returned. -/
theorem c6_amended_brave_id_match (requestId : String) (other : Option String)
    (r1 r2 : ResultDict) (rest : List JsonLine) (raw : String)
    (hne : other ≠ some requestId) :
    braveScan requestId
      (JsonLine.parsed ⟨other, some r1, none⟩ ::
        JsonLine.parsed ⟨some requestId, some r2, none⟩ :: rest) raw = r2 := by
  unfold braveScan
  dsimp only
  rw [if_neg hne]
  unfold braveScan
  dsimp only
  rw [if_pos rfl]

theorem c6_witness :
    braveScan "req-1"
      (JsonLine.parsed ⟨some "other-id", some resOne, none⟩ ::
        JsonLine.parsed ⟨some "req-1", some resTwo, none⟩ :: []) "raw" = resTwo :=
  c6_amended_brave_id_match "req-1" (some "other-id") resOne resTwo [] "raw"
    (by decide)

/-! ## C8 — partial-failure tolerant registry load -/

theorem loadFold (cands : List PluginCandidate) :
    ∀ acc : List (String × PluginConfig),
      cands.foldl loadStep acc =
        acc ++ (cands.filter candidateAccepted).map candidateEntry := by
  induction cands with
  | nil => intro acc; simp
  | cons c rest ih =>
    intro acc
    simp only [List.foldl_cons, List.filter_cons]
    cases hd : c.isDir <;> cases hh : isHiddenName c.name <;>
      cases hc : c.hasConfigFile <;> cases hp : c.parse <;>
      cases hr : c.resolvedClass <;>
      simp [loadStep, candidateAccepted, candidateEntry, hd, hh, hc, hp, hr, ih]

/-- C8 — registry load is partial-failure tolerant: a missing plugins
directory yields an empty registry rather than an error; the registry
returned is exactly the well-formed candidates (non-hidden directories with a
parsable non-empty `config.yaml` and a resolvable client class), each with
its resolved class and server id attached; and removing one malformed
candidate from the directory listing does not change the result — i.e. a
malformed candidate is skipped and all remaining well-formed descriptors are
still returned. -/
theorem c8_load_partial_failure_tolerant :
    (∀ cands, loadPlugins false cands = []) ∧
    (∀ cands, loadPlugins true cands =
      (cands.filter candidateAccepted).map candidateEntry) ∧
    (∀ (l1 l2 : List PluginCandidate) (c : PluginCandidate),
      candidateAccepted c = false →
        loadPlugins true (l1 ++ c :: l2) = loadPlugins true (l1 ++ l2)) := by
  refine ⟨fun cands => rfl, fun cands => ?_, fun l1 l2 c hc => ?_⟩
  · unfold loadPlugins
    rw [if_neg (by simp)]
    simpa using loadFold cands []
  · unfold loadPlugins
    rw [if_neg (by simp), if_neg (by simp)]
    rw [loadFold (l1 ++ c :: l2) [], loadFold (l1 ++ l2) []]
    simp [List.filter_append, hc]

/-- A well-formed filesystem plugin candidate. -/
def candGood : PluginCandidate :=
  ⟨"fs", true, true, YamlParse.ok cfgFs, some "WorkingMCPClient"⟩

/-- A second well-formed candidate. -/
def candGood2 : PluginCandidate :=
  ⟨"web", true, true, YamlParse.ok cfgWeb, some "BraveSearchClient"⟩

/-- A candidate whose `config.yaml` does not parse. -/
def candBad : PluginCandidate :=
  ⟨"broken", true, true, YamlParse.failed, some "BrokenClient"⟩

theorem c8_witness :
    loadPlugins true ([candGood] ++ candBad :: [candGood2]) =
      loadPlugins true ([candGood] ++ [candGood2]) :=
  c8_load_partial_failure_tolerant.2.2 [candGood] [candGood2] candBad (by decide)

/-! ## C5 — close() on the Dispatch Client -/

theorem closeServers_working (run : Runner) :
    ∀ l : List (String × MCPServerClient WorkingMCPClient),
      ∃ l2, closeServers (workingOps run) l =
          (Except.ok l2, l.map (fun p => p.1)) ∧
        l2.map (fun p => p.1) = l.map (fun p => p.1) := by
  intro l
  induction l with
  | nil => exact ⟨[], rfl, rfl⟩
  | cons p rest ih =>
    obtain ⟨l2, hrest, hids⟩ := ih
    obtain ⟨sid, c⟩ := p
    cases hw : c.workingClient with
    | none =>
      refine ⟨(sid, c) :: l2, ?_, by simpa using hids⟩
      unfold closeServers serverClose
      rw [hw, hrest]
      rfl
    | some w =>
      refine ⟨(sid, { c with workingClient := some w.close }) :: l2, ?_,
        by simpa using hids⟩
      unfold closeServers serverClose
      rw [hw, hrest]
      rfl

/-- C5 amended — for a Dispatch Client over the repository's working-client
handlers (whose `close` never raises), each `close()` invokes `close()` on
every active handler and produces no error — also when called twice in
sequence — but `active_servers` is not cleared: the same server ids remain
registered after each of the two calls. -/
theorem c5_amended_close_not_cleared (run : Runner)
    (m : MultiMCPClient WorkingMCPClient) :
    ∃ m1 m2,
      multiClose (workingOps run) m = (Except.ok m1, activeIds m) ∧
      activeIds m1 = activeIds m ∧
      multiClose (workingOps run) m1 = (Except.ok m2, activeIds m) ∧
      activeIds m2 = activeIds m := by
  obtain ⟨l1, h1, hids1⟩ := closeServers_working run m.servers
  refine ⟨{ m with servers := l1 }, ?_⟩
  obtain ⟨l2, h2, hids2⟩ := closeServers_working run l1
  refine ⟨{ m with servers := l2 }, ?_, ?_, ?_, ?_⟩
  · unfold multiClose
    rw [h1]
    rfl
  · exact hids1
  · unfold multiClose
    dsimp only
    rw [h2, hids1]
    rfl
  · exact hids2.trans hids1

/-- C5 counterexample — on a Dispatch Client with the active server `fs`
(whose handler's close succeeds), `close()` returns with `active_servers`
still holding `fs`: the claim that `active_servers` is empty after `close()`
is false. -/
theorem c5_counterexample :
    ((multiClose (workingOps runOk) multiFs).1.map
        (fun c => activeIds c)) = Except.ok ["fs"] ∧
      (["fs"] : List String) ≠ [] :=
  ⟨rfl, by decide⟩

/-! ## C9 — close() on a Server Handler -/

/-- C9 amended — closing an initialized server handler pair closes the inner
working client (whose `initialized` flag becomes false) but leaves the
wrapper's own `initialized` flag true; every subsequent call still fails
with an error payload and issues no backend command — with the inner
`NotInitialized` error for tools present in the catalogue (and the
`UnknownTool` error otherwise). -/
theorem c9_amended_close_inner_flag (run : Runner)
    (c : MCPServerClient WorkingMCPClient) (w : WorkingMCPClient)
    (n toolName : String) (args : Args)
    (hw : c.workingClient = some w) (hi : c.isInitialized = true)
    (hn : c.config.name = some n) :
    ∃ c2, serverClose (workingOps run) c = Except.ok c2 ∧
      c2.isInitialized = true ∧
      (c2.workingClient.map (fun x => x.isInitialized)) = some false ∧
      (serverCallTool (workingOps run) c2 toolName args).2 = [] ∧
      (∃ msg, (serverCallTool (workingOps run) c2 toolName args).1 =
        Except.ok (mkError msg)) ∧
      (((workingAvailableTools.map (fun p => p.1)).contains toolName) = true →
        (serverCallTool (workingOps run) c2 toolName args).1 =
          Except.ok (mkError "MCP client not initialized")) := by
  have hA : serverClose (workingOps run) c =
      Except.ok { c with workingClient := some w.close } := by
    unfold serverClose
    rw [hw]
    rfl
  cases hc : ((workingAvailableTools.map (fun p => p.1)).contains toolName) with
  | false =>
    have hcall : serverCallTool (workingOps run)
        { c with workingClient := some w.close } toolName args =
        (Except.ok (mkError ("Unknown tool \x27" ++ toolName ++ "\x27 for " ++ n)), []) := by
      unfold serverCallTool
      rw [if_neg (by simp [hi])]
      dsimp only [workingOps]
      rw [hc]
      rw [if_pos rfl, hn]
    refine ⟨_, hA, hi, rfl, by rw [hcall], ⟨_, by rw [hcall]⟩, ?_⟩
    intro h
    simp at h
  | true =>
    have hcall : serverCallTool (workingOps run)
        { c with workingClient := some w.close } toolName args =
        (Except.ok (mkError "MCP client not initialized"), []) := by
      unfold serverCallTool
      rw [if_neg (by simp [hi])]
      dsimp only [workingOps]
      rw [hc]
      rw [if_neg (by simp)]
      rfl
    exact ⟨_, hA, hi, rfl, by rw [hcall], ⟨_, by rw [hcall]⟩, fun _ => by rw [hcall]⟩

/-- C9 counterexample — on an initialized server wrapper with an initialized
working client, `close()` completes but the wrapper's `is_initialized` flag
is still true afterwards, contradicting the claim that the handler's
initialized flag is false after close. -/
theorem c9_counterexample :
    ((serverClose (workingOps runOk) srvFs).map (fun c => c.isInitialized)) =
        Except.ok true ∧ true ≠ false :=
  ⟨rfl, by decide⟩

theorem c9_witness :
    ∃ c2, serverClose (workingOps runOk) srvFs = Except.ok c2 ∧
      c2.isInitialized = true ∧
      (c2.workingClient.map (fun x => x.isInitialized)) = some false ∧
      (serverCallTool (workingOps runOk) c2 "read_file" []).2 = [] ∧
      (∃ msg, (serverCallTool (workingOps runOk) c2 "read_file" []).1 =
        Except.ok (mkError msg)) ∧
      (((workingAvailableTools.map (fun p => p.1)).contains "read_file") = true →
        (serverCallTool (workingOps runOk) c2 "read_file" []).1 =
          Except.ok (mkError "MCP client not initialized")) :=
  c9_amended_close_inner_flag runOk srvFs wcFs "Filesystem" "read_file" []
    rfl rfl rfl

/-! ## C10 — get_available_servers and missing presentation keys -/

/-- All three presentation keys the summary indexes are present. -/
def hasSummaryKeys {σ : Type} (c : MCPServerClient σ) : Prop :=
  c.config.name.isSome = true ∧ c.config.description.isSome = true ∧
    c.config.icon.isSome = true

theorem summarizeServers_ok {σ : Type} (ops : HandlerOps σ) :
    ∀ l : List (String × MCPServerClient σ),
      (∀ p ∈ l, hasSummaryKeys p.2) →
      ∃ out, summarizeServers ops l = Except.ok out ∧
        out.map (fun p => p.1) = l.map (fun p => p.1) := by
  intro l
  induction l with
  | nil => exact fun _ => ⟨[], rfl, rfl⟩
  | cons p rest ih =>
    intro hall
    obtain ⟨⟨n, hn⟩, ⟨d, hd⟩, ⟨i, hi⟩⟩ :
        (∃ n, p.2.config.name = some n) ∧ (∃ d, p.2.config.description = some d) ∧
          (∃ i, p.2.config.icon = some i) := by
      obtain ⟨h1, h2, h3⟩ := hall p (List.mem_cons_self p rest)
      exact ⟨Option.isSome_iff_exists.mp h1, Option.isSome_iff_exists.mp h2,
        Option.isSome_iff_exists.mp h3⟩
    obtain ⟨out, hout, hids⟩ := ih (fun q hq => hall q (List.mem_cons_of_mem p hq))
    refine ⟨(p.1, ⟨n, d, i, (serverGetTools ops p.2).map (fun q => q.1)⟩) :: out,
      ?_, by simpa using hids⟩
    unfold summarizeServers summarizeServer
    rw [hn, hd, hi]
    dsimp only
    rw [hout]

theorem summarizeServers_error {σ : Type} (ops : HandlerOps σ) :
    ∀ l : List (String × MCPServerClient σ),
      (∃ p ∈ l, ¬ hasSummaryKeys p.2) →
      ∃ e, summarizeServers ops l = Except.error e := by
  intro l
  induction l with
  | nil => rintro ⟨p, hp, -⟩; cases hp
  | cons p rest ih =>
    rintro ⟨q, hq, hqbad⟩
    cases hn : p.2.config.name with
    | none =>
      refine ⟨"KeyError: \x27name\x27", ?_⟩
      unfold summarizeServers summarizeServer
      rw [hn]
    | some n =>
      cases hd : p.2.config.description with
      | none =>
        refine ⟨"KeyError: \x27description\x27", ?_⟩
        unfold summarizeServers summarizeServer
        rw [hn, hd]
      | some d =>
        cases hi : p.2.config.icon with
        | none =>
          refine ⟨"KeyError: \x27icon\x27", ?_⟩
          unfold summarizeServers summarizeServer
          rw [hn, hd, hi]
        | some i =>
          have hq' : q ∈ rest := by
            rcases List.mem_cons.mp hq with h | h
            · exact absurd ⟨by simp [h, hn], by simp [h, hd], by simp [h, hi]⟩ hqbad
            · exact h
          obtain ⟨e, he⟩ := ih ⟨q, hq', hqbad⟩
          refine ⟨e, ?_⟩
          unfold summarizeServers summarizeServer
          rw [hn, hd, hi]
          dsimp only
          rw [he]

/-- C10 — `get_available_servers` is total exactly under the precondition
that every active server's configuration has the `name`, `description` and
`icon` keys: with the precondition it returns one summary per active server
(same ids, same order); if any active server lacks one of these keys, the
bare dict indexing raises a lookup error instead of returning a partial
summary. -/
theorem c10_available_servers_keys {σ : Type} (ops : HandlerOps σ)
    (m : MultiMCPClient σ) :
    ((∀ p ∈ m.servers, hasSummaryKeys p.2) →
      ∃ out, getAvailableServers ops m = Except.ok out ∧
        out.map (fun p => p.1) = activeIds m) ∧
    ((∃ p ∈ m.servers, ¬ hasSummaryKeys p.2) →
      ∃ e, getAvailableServers ops m = Except.error e) :=
  ⟨fun h => summarizeServers_ok ops m.servers h,
   fun h => summarizeServers_error ops m.servers h⟩

/-- A server wrapper whose configuration lacks the `icon` key. -/
def srvNoIcon : MCPServerClient WorkingMCPClient :=
  ⟨"fs", { cfgFs with icon := none }, some wcFs, true⟩

theorem c10_witness :
    (∃ out, getAvailableServers (workingOps runOk) multiFs = Except.ok out ∧
      out.map (fun p => p.1) = activeIds multiFs) ∧
    (∃ e, getAvailableServers (workingOps runOk)
      ⟨[("fs", srvNoIcon)], true⟩ = Except.error e) :=
  ⟨(c10_available_servers_keys (workingOps runOk) multiFs).1
     (by
       intro p hp
       have hps : p = ("fs", srvFs) := by simpa [multiFs] using hp
       subst hps
       exact ⟨rfl, rfl, rfl⟩),
   (c10_available_servers_keys (workingOps runOk) ⟨[("fs", srvNoIcon)], true⟩).2
     ⟨("fs", srvNoIcon), List.mem_cons_self _ _,
      fun h => absurd h.2.2 (by decide)⟩⟩

/-! ## C3 — one failing server does not block the others -/

theorem length_filter_not_add {α : Type} (p : α → Bool) :
    ∀ l : List α,
      (l.filter p).length + (l.filter (fun a => !(p a))).length = l.length := by
  intro l
  induction l with
  | nil => rfl
  | cons a t ih =>
    cases hpa : p a <;> simp [List.filter_cons, hpa] <;> omega

theorem filter_fst_singleton {α : Type} (f : α → String) :
    ∀ (l : List α) (b : α), (l.map f).Nodup → b ∈ l →
      l.filter (fun a => f a == f b) = [b] := by
  intro l
  induction l with
  | nil => intro b _ hb; cases hb
  | cons a t ih =>
    intro b hnd hb
    rw [List.map_cons] at hnd
    have hna : f a ∉ t.map f := (List.nodup_cons.mp hnd).1
    have hndt : (t.map f).Nodup := (List.nodup_cons.mp hnd).2
    rcases List.mem_cons.mp hb with hba | hbt
    · rw [hba]
      rw [List.filter_cons, if_pos (by simp)]
      have ht : t.filter (fun x => f x == f a) = [] := by
        rw [List.filter_eq_nil_iff]
        intro x hx
        simp only [beq_iff_eq]
        intro hfx
        exact hna (hfx ▸ List.mem_map_of_mem f hx)
      rw [ht]
    · have hfab : f a ≠ f b := by
        intro he
        exact hna (he ▸ List.mem_map_of_mem f hbt)
      rw [List.filter_cons, if_neg (by simp [hfab])]
      exact ih b hndt hbt

theorem multiInitGo_no_raise {σ : Type}
    (step : String → PluginConfig → InitOutcome σ) :
    ∀ (l : List (String × PluginConfig))
      (acc : List (String × MCPServerClient σ)),
      (∀ p ∈ l, p.2.enabled = true → (step p.1 p.2).isRaisedB = false) →
      (multiInitGo step l acc).2 = false ∧
        (multiInitGo step l acc).1.map (fun p => p.1) =
          acc.map (fun p => p.1) ++
            (l.filter (fun p => p.2.enabled && (step p.1 p.2).isOkB)).map
              (fun p => p.1) := by
  intro l
  induction l with
  | nil =>
    intro acc _
    exact ⟨rfl, by simp [multiInitGo]⟩
  | cons p rest ih =>
    intro acc hnr
    have hnr2 : ∀ q ∈ rest, q.2.enabled = true →
        (step q.1 q.2).isRaisedB = false :=
      fun q hq => hnr q (List.mem_cons_of_mem p hq)
    unfold multiInitGo
    simp only [List.filter_cons]
    cases he : p.2.enabled with
    | false =>
      rw [if_pos rfl]
      obtain ⟨h1, h2⟩ := ih acc hnr2
      exact ⟨h1, by rw [h2]; simp⟩
    | true =>
      rw [if_neg (by simp)]
      cases hs : step p.1 p.2 with
      | ok c =>
        obtain ⟨h1, h2⟩ := ih (acc ++ [(p.1, c)]) hnr2
        refine ⟨h1, ?_⟩
        rw [h2]
        simp [InitOutcome.isOkB]
      | failed =>
        obtain ⟨h1, h2⟩ := ih acc hnr2
        refine ⟨h1, ?_⟩
        rw [h2]
        simp [InitOutcome.isOkB]
      | raised e =>
        exfalso
        have hcontra := hnr p (List.mem_cons_self p rest) he
        rw [hs] at hcontra
        simp [InitOutcome.isRaisedB] at hcontra

theorem multiInitGo_append {σ : Type}
    (step : String → PluginConfig → InitOutcome σ) :
    ∀ (l1 l2 : List (String × PluginConfig))
      (acc : List (String × MCPServerClient σ)),
      (multiInitGo step l1 acc).2 = false →
      multiInitGo step (l1 ++ l2) acc =
        multiInitGo step l2 (multiInitGo step l1 acc).1 := by
  intro l1
  induction l1 with
  | nil => intro l2 acc _; rfl
  | cons p rest ih =>
    intro l2 acc hok
    by_cases he : p.2.enabled = false
    · have hg : multiInitGo step (p :: rest) acc = multiInitGo step rest acc := by
        simp only [multiInitGo]
        rw [if_pos he]
      have hg2 : multiInitGo step ((p :: rest) ++ l2) acc =
          multiInitGo step (rest ++ l2) acc := by
        rw [List.cons_append]
        simp only [multiInitGo]
        rw [if_pos he]
      rw [hg] at hok
      rw [hg2, ih l2 acc hok, hg]
    · cases hs : step p.1 p.2 with
      | ok c =>
        have hg : multiInitGo step (p :: rest) acc =
            multiInitGo step rest (acc ++ [(p.1, c)]) := by
          simp only [multiInitGo]
          rw [if_neg he, hs]
        have hg2 : multiInitGo step ((p :: rest) ++ l2) acc =
            multiInitGo step (rest ++ l2) (acc ++ [(p.1, c)]) := by
          rw [List.cons_append]
          simp only [multiInitGo]
          rw [if_neg he, hs]
        rw [hg] at hok
        rw [hg2, ih l2 _ hok, hg]
      | failed =>
        have hg : multiInitGo step (p :: rest) acc = multiInitGo step rest acc := by
          simp only [multiInitGo]
          rw [if_neg he, hs]
        have hg2 : multiInitGo step ((p :: rest) ++ l2) acc =
            multiInitGo step (rest ++ l2) acc := by
          rw [List.cons_append]
          simp only [multiInitGo]
          rw [if_neg he, hs]
        rw [hg] at hok
        rw [hg2, ih l2 acc hok, hg]
      | raised e =>
        exfalso
        have hg : multiInitGo step (p :: rest) acc = (acc, true) := by
          simp only [multiInitGo]
          rw [if_neg he, hs]
        rw [hg] at hok
        simp at hok

theorem multiInitGo_raised_head {σ : Type}
    (step : String → PluginConfig → InitOutcome σ)
    (b : String × PluginConfig) (rest : List (String × PluginConfig))
    (acc : List (String × MCPServerClient σ)) (e : String)
    (hb : b.2.enabled = true) (hs : step b.1 b.2 = InitOutcome.raised e) :
    multiInitGo step (b :: rest) acc = (acc, true) := by
  unfold multiInitGo
  rw [if_neg (by simp [hb]), hs]

theorem multiInit_fresh_go {σ : Type}
    (ctor : String → PluginConfig → Except String σ)
    (wcInit : σ → Except String (Bool × σ))
    (plugins : List (String × PluginConfig))
    (servers : List (String × MCPServerClient σ)) (aborted : Bool)
    (hgo : multiInitGo (initPlugin ctor wcInit) plugins [] = (servers, aborted))
    (hne : plugins ≠ []) :
    multiInit ctor wcInit plugins (freshMulti σ) =
      (if aborted = true then ((⟨servers, false⟩ : MultiMCPClient σ), false)
       else if servers.isEmpty = true then
         ((⟨servers, false⟩ : MultiMCPClient σ), false)
       else ((⟨servers, true⟩ : MultiMCPClient σ), true)) := by
  unfold multiInit freshMulti
  rw [if_neg (fun h => hne (List.isEmpty_iff.mp h))]
  dsimp only
  rw [hgo]
  cases aborted with
  | true => rfl
  | false =>
    rw [if_neg (by simp)]

/-- C3 corrected — (a) `initialize()` returns true exactly when at least one
server ended up active, provided no enabled plugin's step raises; (b) with
`N ≥ 2` enabled descriptors of which exactly one fails with the failure
contained (its `MCPServerClient.initialize` returns false) and the others
succeed, exactly the other `N-1` become active (their ids, in registry
order), the active count is `N-1`, and `initialize()` returns true; (c) an
enabled plugin whose step raises (missing `client_class` or `name` key, or
a client-class constructor exception) aborts the loop through the outer
except: the servers initialized before it remain active, yet `initialize()`
returns false. -/
theorem c3_partial_init_success {σ : Type}
    (ctor : String → PluginConfig → Except String σ)
    (wcInit : σ → Except String (Bool × σ))
    (plugins : List (String × PluginConfig)) :
    ((∀ p ∈ plugins, p.2.enabled = true →
        ((initPlugin ctor wcInit) p.1 p.2).isRaisedB = false) →
      ((multiInit ctor wcInit plugins (freshMulti σ)).2 = true ↔
        (multiInit ctor wcInit plugins (freshMulti σ)).1.servers ≠ [])) ∧
    (∀ b : String × PluginConfig,
      (plugins.map (fun p => p.1)).Nodup →
      b ∈ plugins.filter (fun p => p.2.enabled) →
      (initPlugin ctor wcInit) b.1 b.2 = InitOutcome.failed →
      (∀ p ∈ plugins.filter (fun p => p.2.enabled), p.1 ≠ b.1 →
        ((initPlugin ctor wcInit) p.1 p.2).isOkB = true) →
      2 ≤ (plugins.filter (fun p => p.2.enabled)).length →
      ((multiInit ctor wcInit plugins (freshMulti σ)).1.servers.map
          (fun p => p.1) =
        ((plugins.filter (fun p => p.2.enabled)).filter
            (fun p => !(p.1 == b.1))).map (fun p => p.1) ∧
       ((plugins.filter (fun p => p.2.enabled)).filter
          (fun p => !(p.1 == b.1))).length + 1 =
         (plugins.filter (fun p => p.2.enabled)).length ∧
       (multiInit ctor wcInit plugins (freshMulti σ)).2 = true)) ∧
    (∀ (pre post : List (String × PluginConfig)) (b : String × PluginConfig)
        (e : String),
      plugins = pre ++ b :: post →
      b.2.enabled = true →
      (initPlugin ctor wcInit) b.1 b.2 = InitOutcome.raised e →
      (∀ p ∈ pre, p.2.enabled = true →
        ((initPlugin ctor wcInit) p.1 p.2).isRaisedB = false) →
      ((multiInit ctor wcInit plugins (freshMulti σ)).1.servers.map
          (fun p => p.1) =
        (pre.filter (fun p => p.2.enabled &&
            ((initPlugin ctor wcInit) p.1 p.2).isOkB)).map (fun p => p.1) ∧
       (multiInit ctor wcInit plugins (freshMulti σ)).2 = false)) := by
  refine ⟨?_, ?_, ?_⟩
  · intro hnr
    by_cases hne : plugins = []
    · subst hne
      unfold multiInit
      simp [freshMulti]
    · obtain ⟨hab, hids⟩ :=
        multiInitGo_no_raise (initPlugin ctor wcInit) plugins [] hnr
      cases hgo : multiInitGo (initPlugin ctor wcInit) plugins [] with
      | mk servers aborted =>
        rw [hgo] at hab hids
        dsimp only at hab hids
        subst hab
        rw [multiInit_fresh_go ctor wcInit plugins servers false hgo hne]
        cases servers with
        | nil => simp
        | cons a t => simp
  · intro b hnodup hb hfail hsucc hlen
    have hbp : b ∈ plugins := List.mem_of_mem_filter hb
    have hnr : ∀ p ∈ plugins, p.2.enabled = true →
        ((initPlugin ctor wcInit) p.1 p.2).isRaisedB = false := by
      intro p hp he
      by_cases hpb : p.1 = b.1
      · have hpe : p = b := List.inj_on_of_nodup_map hnodup hp hbp hpb
        rw [hpe, hfail]
        rfl
      · have hpf : p ∈ plugins.filter (fun q => q.2.enabled) :=
          List.mem_filter.mpr ⟨hp, he⟩
        have hok := hsucc p hpf hpb
        cases hsp : (initPlugin ctor wcInit) p.1 p.2 with
        | ok c => rfl
        | failed => rfl
        | raised e =>
          rw [hsp] at hok
          exact absurd hok (by simp [InitOutcome.isOkB])
    have hkey : plugins.filter
        (fun p => p.2.enabled && ((initPlugin ctor wcInit) p.1 p.2).isOkB) =
        (plugins.filter (fun p => p.2.enabled)).filter
          (fun p => !(p.1 == b.1)) := by
      rw [List.filter_filter]
      apply List.filter_congr
      intro x hx
      cases he : x.2.enabled with
      | false => simp
      | true =>
        simp only [Bool.true_and, Bool.and_true]
        by_cases hxb : x.1 = b.1
        · have hxe : x = b := List.inj_on_of_nodup_map hnodup hx hbp hxb
          rw [hxe, hfail]
          simp [InitOutcome.isOkB]
        · have hx2 : x ∈ plugins.filter (fun p => p.2.enabled) :=
            List.mem_filter.mpr ⟨hx, he⟩
          rw [hsucc x hx2 hxb]
          simp [hxb]
    have hnd2 : ((plugins.filter (fun p => p.2.enabled)).map
        (fun p => p.1)).Nodup :=
      List.Nodup.sublist ((List.filter_sublist plugins).map (fun p => p.1))
        hnodup
    have hone : ((plugins.filter (fun p => p.2.enabled)).filter
        (fun p => p.1 == b.1)).length = 1 := by
      rw [filter_fst_singleton (fun p => p.1)
        (plugins.filter (fun p => p.2.enabled)) b hnd2 hb]
      rfl
    have hnot : ((plugins.filter (fun p => p.2.enabled)).filter
        (fun p => !(!(p.1 == b.1)))) =
        ((plugins.filter (fun p => p.2.enabled)).filter
          (fun p => p.1 == b.1)) := by
      apply List.filter_congr
      intro x _
      simp
    have hsplit := length_filter_not_add (fun p => !(p.1 == b.1))
      (plugins.filter (fun p => p.2.enabled))
    rw [hnot, hone] at hsplit
    have hlen1 : ((plugins.filter (fun p => p.2.enabled)).filter
        (fun p => !(p.1 == b.1))).length + 1 =
        (plugins.filter (fun p => p.2.enabled)).length := by omega
    obtain ⟨hab, hids⟩ :=
      multiInitGo_no_raise (initPlugin ctor wcInit) plugins [] hnr
    have hne : plugins ≠ [] := by
      intro h
      rw [h] at hbp
      cases hbp
    cases hgo : multiInitGo (initPlugin ctor wcInit) plugins [] with
    | mk servers aborted =>
      rw [hgo] at hab hids
      dsimp only at hab hids
      subst hab
      rw [hkey] at hids
      simp only [List.map_nil, List.nil_append] at hids
      have hsvne : servers.isEmpty = false := by
        cases hsv : servers with
        | nil =>
          exfalso
          rw [hsv] at hids
          have hlc := congrArg List.length hids
          simp only [List.length_map, List.length_nil] at hlc
          omega
        | cons a t => rfl
      rw [multiInit_fresh_go ctor wcInit plugins servers false hgo hne]
      rw [hsvne]
      refine ⟨?_, hlen1, ?_⟩
      · simpa using hids
      · simp
  · intro pre post b e hplug hb hs hnrpre
    obtain ⟨hab, hids⟩ :=
      multiInitGo_no_raise (initPlugin ctor wcInit) pre [] hnrpre
    have hne : plugins ≠ [] := by
      rw [hplug]
      simp
    cases hgo1 : multiInitGo (initPlugin ctor wcInit) pre [] with
    | mk acc1 ab1 =>
      rw [hgo1] at hab hids
      dsimp only at hab hids
      subst hab
      have happ := multiInitGo_append (initPlugin ctor wcInit) pre (b :: post)
        [] (by rw [hgo1])
      rw [hgo1] at happ
      dsimp only at happ
      have habort := multiInitGo_raised_head (initPlugin ctor wcInit) b post
        acc1 e hb hs
      have hgo : multiInitGo (initPlugin ctor wcInit) plugins [] =
          (acc1, true) := by
        rw [hplug, happ, habort]
      rw [multiInit_fresh_go ctor wcInit plugins acc1 true hgo hne]
      constructor
      · simpa using hids
      · rfl

/-- A constructor environment: `client_class(config)` builds a working
client from the connection info, never raising. -/
def demoCtor : String → PluginConfig → Except String WorkingMCPClient :=
  fun _ cfg =>
    Except.ok ⟨cfg.containerName.getD "", cfg.serverPath.getD "", false⟩

/-- A backend environment in which every container is reachable. -/
def demoWcInit : WorkingMCPClient → Except String (Bool × WorkingMCPClient) :=
  fun w => Except.ok (true, { w with isInitialized := true })

/-- A backend environment in which the brave-search container is down (its
initialize returns false, a contained failure) and every other container is
reachable. -/
def demoWcInitFailWeb :
    WorkingMCPClient → Except String (Bool × WorkingMCPClient) :=
  fun w =>
    if w.containerName = "agent-framework-mcp-brave-search-1" then
      Except.ok (false, w)
    else Except.ok (true, { w with isInitialized := true })

/-- A registry with the two enabled plugins `fs` and `web`. -/
def demoPlugins : List (String × PluginConfig) :=
  [("fs", cfgFs), ("web", cfgWeb)]

/-- An enabled plugin configuration lacking the `name` key. -/
def cfgNoName : PluginConfig :=
  ⟨true, none, some "Broken plugin", some "warning",
    some "agent-framework-mcp-broken-1", some "/app", none,
    some "WorkingMCPClient", some "broken"⟩

/-- A registry with two enabled plugins: a well-formed `fs` and a `broken`
one whose config lacks `name`. -/
def badPlugins : List (String × PluginConfig) :=
  [("fs", cfgFs), ("broken", cfgNoName)]

/-- C3 counterexample — on a registry of two enabled descriptors where `fs`
initializes and `broken` (whose config lacks `name`) fails by raising,
`initialize()` ends with `fs` active yet returns false: one failure blocked
the rest of the loop, and the return value is false although at least one
server ended up active — both parts of the claim fail. -/
theorem c3_counterexample :
    (multiInit demoCtor demoWcInit badPlugins
        (freshMulti WorkingMCPClient)).1.servers.map (fun p => p.1) =
      ["fs"] ∧
    (multiInit demoCtor demoWcInit badPlugins
        (freshMulti WorkingMCPClient)).2 = false ∧
    (["fs"] : List String) ≠ [] :=
  ⟨rfl, rfl, by decide⟩

theorem c3_witness :
    (multiInit demoCtor demoWcInitFailWeb demoPlugins
        (freshMulti WorkingMCPClient)).1.servers.map (fun p => p.1) =
      ((demoPlugins.filter (fun p => p.2.enabled)).filter
          (fun p => !(p.1 == "web"))).map (fun p => p.1) ∧
    ((demoPlugins.filter (fun p => p.2.enabled)).filter
        (fun p => !(p.1 == "web"))).length + 1 =
      (demoPlugins.filter (fun p => p.2.enabled)).length ∧
    (multiInit demoCtor demoWcInitFailWeb demoPlugins
        (freshMulti WorkingMCPClient)).2 = true :=
  (c3_partial_init_success demoCtor demoWcInitFailWeb demoPlugins).2.1
    ("web", cfgWeb) (by decide) (by decide) rfl (by decide) (by decide)

end Spec2Proof
